import Mathlib

/-!
Verification of the purple-vet-whatsapp relay service.

The development shallowly embeds the two `WhatsAppService` variants of the
repository:

* the Cloud-API variant (`src/services/whatsappService.ts`, shipped here as
  `src/unnamed/part_001`): phone normalization `formatPhoneNumber`, the
  guarded `sendMessage` / `sendTemplateMessage` dispatchers and their
  provider-error mapping;
* the session (browser-automation) variant (`src/routes/whatsapp.ts`, class
  `WhatsAppService` at the end of the file): `initialize`, `sendMessage`
  and `disconnect` over the in-memory singleton state.

Outbound provider interaction (axios / whatsapp-web.js) is modelled by
explicit outcome values handed to the embedded functions, and each embedded
dispatcher additionally returns the list of provider calls it issued, so
that "no outbound call happens on this path" is a provable statement.
JavaScript truthiness of optional string fields (`undefined` and `""` are
falsy) is modelled by `strTruthy`.
-/

/-- JS truthiness of an optional string (`undefined` and `""` are falsy,
every other string is truthy).  Used for `request.linkUrl`,
`request.mediaUrl` and `numberId._serialized` checks. -/
def strTruthy : Option String → Bool
  | some s => s != ""
  | none => false

/-- `phone.replace(/\D/g, '')` — keep exactly the decimal digit characters
of the input string. -/
def digitsOnly (s : String) : String :=
  ⟨s.data.filter Char.isDigit⟩

/-- `if (formatted.startsWith('0')) formatted = formatted.substring(1)` —
drop a single leading `'0'` character when present. -/
def dropLeadingZero (s : String) : String :=
  match s.data with
  | '0' :: rest => ⟨rest⟩
  | _ => s

/-- `if (formatted.length <= 11) formatted = '55' + formatted` — prepend the
Brazilian country code when at most 11 digits remain. -/
def prependCountryCode (s : String) : String :=
  if s.length ≤ 11 then "55" ++ s else s

/-- `WhatsAppService.formatPhoneNumber` of the Cloud-API variant: strip
non-digits, drop one leading zero, prepend `55` when at most 11 digits
remain. -/
def formatPhoneNumber (phone : String) : String :=
  prependCountryCode (dropLeadingZero (digitsOnly phone))

/-- The normalization algorithm exactly as the specification words it
(stated independently of `formatPhoneNumber`, to be compared with it):
remove every non-digit character; then, if the remaining string starts with
`'0'`, remove exactly that one leading character; then, if the resulting
length is at most 11, prepend `"55"`, otherwise return it unchanged. -/
def formatPhoneNumberSpec (p : String) : String :=
  let digits : String := ⟨p.data.filter Char.isDigit⟩
  let trimmed : String := if digits.data.head? = some '0' then ⟨digits.data.drop 1⟩ else digits
  if trimmed.length ≤ 11 then "55" ++ trimmed else trimmed

theorem dropLeadingZero_eq (s : String) :
    dropLeadingZero s = if s.data.head? = some '0' then (⟨s.data.drop 1⟩ : String) else s := by
  unfold dropLeadingZero
  split
  · rename_i rest heq
    simp [heq]
  · rename_i hne
    cases hd : s.data with
    | nil => simp [hd]
    | cons c rest =>
      have hc : c ≠ '0' := by
        intro h
        exact hne rest (by rw [hd, h])
      simp [hd, hc]

theorem digitsOnly_all_digits (s : String) : ∀ c ∈ (digitsOnly s).data, c.isDigit := by
  intro c hc
  simp only [digitsOnly, List.mem_filter] at hc
  exact hc.2

theorem digitsOnly_eq_self (s : String) (h : ∀ c ∈ s.data, c.isDigit) :
    digitsOnly s = s := by
  unfold digitsOnly
  rw [List.filter_eq_self.mpr h]

theorem dropLeadingZero_all_digits (s : String) (h : ∀ c ∈ s.data, c.isDigit) :
    ∀ c ∈ (dropLeadingZero s).data, c.isDigit := by
  unfold dropLeadingZero
  split
  · rename_i rest heq
    intro c hc
    exact h c (by rw [heq]; exact List.mem_cons_of_mem _ hc)
  · exact h

theorem dropLeadingZero_eq_self (s : String) (h : s.data.head? ≠ some '0') :
    dropLeadingZero s = s := by
  rw [dropLeadingZero_eq, if_neg h]

theorem dropLeadingZero_length_ge (s : String) :
    s.length - 1 ≤ (dropLeadingZero s).length := by
  unfold dropLeadingZero
  split
  · rename_i rest heq
    simp [String.length, heq]
  · omega

theorem dropLeadingZero_length_le (s : String) :
    (dropLeadingZero s).length ≤ s.length := by
  unfold dropLeadingZero
  split
  · rename_i rest heq
    simp [String.length, heq]
  · omega

theorem formatPhoneNumber_all_digits (p : String) :
    ∀ c ∈ (formatPhoneNumber p).data, c.isDigit := by
  unfold formatPhoneNumber prependCountryCode
  have hd := dropLeadingZero_all_digits (digitsOnly p) (digitsOnly_all_digits p)
  split
  · intro c hc
    rw [String.data_append] at hc
    rcases List.mem_append.mp hc with h5 | hrest
    · have : c = '5' := by
        simpa using h5
      rw [this]; decide
    · exact hd c hrest
  · exact hd

/-- C1: the Cloud-API `formatPhoneNumber` computes exactly the three-step
algorithm of the specification (strip non-digits, drop one leading zero,
prepend `55` when at most 11 digits remain), and the four quoted examples
hold, including `"05511999999999"` whose length is re-evaluated after the
leading zero is dropped. -/
theorem formatPhoneNumber_spec_correct :
    (∀ p : String, formatPhoneNumber p = formatPhoneNumberSpec p) ∧
    formatPhoneNumber "11999999999" = "5511999999999" ∧
    formatPhoneNumber "+55 11 99999-9999" = "5511999999999" ∧
    formatPhoneNumber "(11) 99999-9999" = "5511999999999" ∧
    formatPhoneNumber "05511999999999" = "5511999999999" := by
  refine ⟨?_, by decide, by decide, by decide, by decide⟩
  intro p
  unfold formatPhoneNumber formatPhoneNumberSpec prependCountryCode digitsOnly
  rw [dropLeadingZero_eq]

/-- C2 counterexample: `"0012345678901"` normalizes to `"012345678901"`, a
12-character string (strictly longer than the 11-character threshold), yet
applying `formatPhoneNumber` a second time changes it (the second
application drops the remaining leading zero and then prepends `"55"`). -/
theorem formatPhoneNumber_not_idempotent_with_leading_zero :
    11 < (formatPhoneNumber "0012345678901").length ∧
    formatPhoneNumber (formatPhoneNumber "0012345678901") ≠
      formatPhoneNumber "0012345678901" := by
  decide

/-- C2 (amended): for every input `x` such that `formatPhoneNumber x` is
strictly longer than 11 characters AND does not start with `'0'`, a second
application of `formatPhoneNumber` leaves the canonical string unchanged;
in particular no country code is prepended again. -/
theorem formatPhoneNumber_idempotent_no_leading_zero (x : String)
    (hlen : 11 < (formatPhoneNumber x).length)
    (hz : (formatPhoneNumber x).data.head? ≠ some '0') :
    formatPhoneNumber (formatPhoneNumber x) = formatPhoneNumber x := by
  have hall := formatPhoneNumber_all_digits x
  show prependCountryCode (dropLeadingZero (digitsOnly (formatPhoneNumber x))) = _
  rw [digitsOnly_eq_self _ hall, dropLeadingZero_eq_self _ hz]
  unfold prependCountryCode
  rw [if_neg (by omega)]

/-- C2 witness: the amended idempotence theorem applied at the concrete
input `"+55 11 99999-9999"`. -/
theorem formatPhoneNumber_idempotent_no_leading_zero_witness :
    formatPhoneNumber (formatPhoneNumber "+55 11 99999-9999") =
      formatPhoneNumber "+55 11 99999-9999" :=
  formatPhoneNumber_idempotent_no_leading_zero "+55 11 99999-9999" (by decide) (by decide)

/-- C4 counterexample: the empty string is NOT mapped to the empty
canonical string — the empty digit string has length `0 ≤ 11`, so the
country code is prepended. -/
theorem formatPhoneNumber_empty_ne_empty : formatPhoneNumber "" ≠ "" := by
  decide

/-- C4 (amended): `formatPhoneNumber ""` returns `"55"` — the country code
is prepended even when the input contains no digits at all. -/
theorem formatPhoneNumber_empty_eq_55 : formatPhoneNumber "" = "55" := by
  decide

/-- Static configuration of the Cloud-API `WhatsAppService` singleton, read
from the environment in the constructor. -/
structure CloudConfig where
  apiUrl : String
  accessToken : String
  phoneNumberId : String
  businessAccountId : String
deriving DecidableEq

/-- `isConfigured()`: `!!(this.accessToken && this.phoneNumberId)` — both
strings must be truthy, that is, non-empty. -/
def isConfigured (cfg : CloudConfig) : Bool :=
  cfg.accessToken != "" && cfg.phoneNumberId != ""

/-- `WhatsAppSendMessageRequest` of the Cloud-API variant. -/
structure WhatsAppSendMessageRequest where
  recipientPhone : String
  recipientName : Option String
  message : String
  linkUrl : Option String
  linkPreview : Option Bool
deriving DecidableEq

/-- The `{ success, messageId?, error? }` result shape shared by every
dispatcher method. -/
structure DispatchResult where
  success : Bool
  messageId : Option String
  error : Option String
deriving DecidableEq

/-- The JSON payload built for a text message; `toPhone` models the
payload's `to` key (`to` is reserved in Lean). -/
structure TextPayload where
  messaging_product : String
  recipient_type : String
  toPhone : String
  type : String
  preview_url : Bool
  body : String
deriving DecidableEq

/-- One outbound `axios.post` to the provider messages endpoint. -/
structure OutboundCall where
  url : String
  authorization : String
  payload : TextPayload
deriving DecidableEq

/-- The error thrown by a failed `axios.post`: `apiErr` models
`error.response?.data?.error` (its `message` and its `code` rendered as
text) when the provider returned an error payload, and `message` models
`error.message`. -/
structure AxiosError where
  apiErr : Option (String × String)
  message : String
deriving DecidableEq

/-- Outcome of the single outbound provider call: the list of message ids
in `response.data.messages` on HTTP success, or the thrown error. -/
inductive ProviderOutcome where
  | ok (messageIds : List String)
  | err (e : AxiosError)
deriving DecidableEq

/-- The configuration error returned by `sendMessage` when the guard
fires. -/
def configErrorSendMessage : String :=
  "WhatsApp Cloud API não está configurada. Verifique as variáveis de ambiente."

/-- The configuration error returned by `sendTemplateMessage` when the
guard fires. -/
def configErrorTemplate : String :=
  "WhatsApp Cloud API não está configurada."

/-- Message of the TypeError raised inside the `try` block when the
provider response carries no message entry and the code evaluates
`response.data.messages[0].id`; it is caught and surfaced through
`error.message`. -/
def runtimeFieldAccessError : String :=
  "Cannot read properties of undefined (reading id)"

/-- `sendMessage` catch block: `WhatsApp API Error: <msg> (Code: <code>)`
when `error.response?.data?.error` is present, else `error.message` when
truthy, else the default text. -/
def sendMessageErrorText (e : AxiosError) : String :=
  match e.apiErr with
  | some (m, c) => "WhatsApp API Error: " ++ m ++ " (Code: " ++ c ++ ")"
  | none => if e.message != "" then e.message else "Erro ao enviar mensagem"

/-- `WhatsAppService.sendMessage` of the Cloud-API variant, as a function
of the configuration, the request, and the outcome of the (at most one)
outbound provider call.  The second component is that outbound call when
one is issued. -/
def cloudSendMessage (cfg : CloudConfig) (req : WhatsAppSendMessageRequest)
    (provider : ProviderOutcome) : DispatchResult × Option OutboundCall :=
  if !(isConfigured cfg) then
    ({ success := false, messageId := none, error := some configErrorSendMessage }, none)
  else
    let formattedPhone := formatPhoneNumber req.recipientPhone
    let url := cfg.apiUrl ++ "/" ++ cfg.phoneNumberId ++ "/messages"
    let messageText :=
      if strTruthy req.linkUrl then req.message ++ "\n\n🔗 " ++ req.linkUrl.getD ""
      else req.message
    let payload : TextPayload :=
      { messaging_product := "whatsapp"
        recipient_type := "individual"
        toPhone := formattedPhone
        type := "text"
        preview_url := req.linkPreview != some false
        body := messageText }
    let call : OutboundCall :=
      { url := url, authorization := "Bearer " ++ cfg.accessToken, payload := payload }
    match provider with
    | ProviderOutcome.ok (firstId :: _) =>
        ({ success := true, messageId := some firstId, error := none }, some call)
    | ProviderOutcome.ok [] =>
        ({ success := false, messageId := none, error := some runtimeFieldAccessError }, some call)
    | ProviderOutcome.err e =>
        ({ success := false, messageId := none, error := some (sendMessageErrorText e) }, some call)

/-- The JSON payload built for a template message; `bodyParameters` models
the `components` array, attached only when `parameters` is a non-empty
array. -/
structure TemplatePayload where
  messaging_product : String
  toPhone : String
  type : String
  templateName : String
  languageCode : String
  bodyParameters : Option (List String)
deriving DecidableEq

/-- One outbound `axios.post` carrying a template payload. -/
structure TemplateCall where
  url : String
  authorization : String
  payload : TemplatePayload
deriving DecidableEq

/-- `sendTemplateMessage` catch block:
`error.response?.data?.error?.message || error.message`. -/
def templateErrorText (e : AxiosError) : String :=
  match e.apiErr with
  | some (m, _) => if m != "" then m else e.message
  | none => e.message

/-- `WhatsAppService.sendTemplateMessage` of the Cloud-API variant. -/
def cloudSendTemplateMessage (cfg : CloudConfig)
    (recipientPhone templateName languageCode : String)
    (parameters : Option (List String)) (provider : ProviderOutcome) :
    DispatchResult × Option TemplateCall :=
  if !(isConfigured cfg) then
    ({ success := false, messageId := none, error := some configErrorTemplate }, none)
  else
    let formattedPhone := formatPhoneNumber recipientPhone
    let url := cfg.apiUrl ++ "/" ++ cfg.phoneNumberId ++ "/messages"
    let comps : Option (List String) :=
      match parameters with
      | some ps => if ps.length > 0 then some ps else none
      | none => none
    let payload : TemplatePayload :=
      { messaging_product := "whatsapp"
        toPhone := formattedPhone
        type := "template"
        templateName := templateName
        languageCode := languageCode
        bodyParameters := comps }
    let call : TemplateCall :=
      { url := url, authorization := "Bearer " ++ cfg.accessToken, payload := payload }
    match provider with
    | ProviderOutcome.ok (firstId :: _) =>
        ({ success := true, messageId := some firstId, error := none }, some call)
    | ProviderOutcome.ok [] =>
        ({ success := false, messageId := none, error := some runtimeFieldAccessError }, some call)
    | ProviderOutcome.err e =>
        ({ success := false, messageId := none, error := some (templateErrorText e) }, some call)

/-- In-memory state of the session-variant `WhatsAppService` singleton.
`client` carries an opaque identifier of the constructed
`whatsapp-web.js` client (`none` models `null`). -/
structure SessionState where
  client : Option Nat
  isInitializing : Bool
  qrCodeData : Option String
  isReady : Bool
  phoneNumber : Option String
deriving DecidableEq

/-- `WhatsAppSendMessageRequest` of the session variant (`content` plus an
optional `mediaUrl`). -/
structure SessionSendMessageRequest where
  recipientPhone : String
  recipientName : Option String
  content : String
  mediaUrl : Option String
deriving DecidableEq

/-- The provider calls the session `sendMessage` can issue, in order:
`client.getNumberId`, `MessageMedia.fromUrl`, and `client.sendMessage`
with media + caption or with plain text. -/
inductive SessionCall where
  | lookup (phone : String)
  | fetchMedia (url : String)
  | sendMediaMessage (chatId : String) (media : Nat) (caption : String)
  | sendTextMessage (chatId : String) (content : String)
deriving DecidableEq

/-- Behaviour of the external whatsapp-web.js client during one
`sendMessage` run: each field gives the result of the corresponding
provider call, with `Except.error` modelling a thrown exception
(`error.message`).  `getNumberId` yields `numberId._serialized` (or `none`
when the lookup found nothing); media objects are opaque handles. -/
structure SessionEnv where
  getNumberId : String → Except String (Option String)
  mediaFromUrl : String → Except String Nat
  sendMediaCall : String → Nat → String → Except String String
  sendTextCall : String → String → Except String String

/-- Error returned when the session client is absent or not ready. -/
def notConnectedError : String :=
  "WhatsApp não está conectado. Inicialize o cliente primeiro."

/-- Error returned when `getNumberId` found no registered number. -/
def notRegisteredError (recipientPhone : String) : String :=
  "O número " ++ recipientPhone ++ " não está registrado no WhatsApp."

/-- Session `sendMessage` catch block:
`error.message || 'Erro ao enviar mensagem'`. -/
def catchallError (m : String) : String :=
  if m != "" then m else "Erro ao enviar mensagem"

/-- `WhatsAppService.sendMessage` of the session variant.  Returns the
dispatch result, the (unchanged — the method never assigns to any field)
state, and the ordered list of provider calls issued, a thrown call
included. -/
def sessionSendMessage (st : SessionState) (req : SessionSendMessageRequest)
    (env : SessionEnv) : DispatchResult × SessionState × List SessionCall :=
  if st.client.isNone || !st.isReady then
    ({ success := false, messageId := none, error := some notConnectedError }, st, [])
  else
    let formattedPhone := digitsOnly req.recipientPhone
    match env.getNumberId formattedPhone with
    | Except.error m =>
        ({ success := false, messageId := none, error := some (catchallError m) }, st,
          [SessionCall.lookup formattedPhone])
    | Except.ok numberId =>
      if !(strTruthy numberId) then
        ({ success := false, messageId := none,
            error := some (notRegisteredError req.recipientPhone) }, st,
          [SessionCall.lookup formattedPhone])
      else
        let validChatId := numberId.getD ""
        if strTruthy req.mediaUrl then
          let mUrl := req.mediaUrl.getD ""
          match env.mediaFromUrl mUrl with
          | Except.error m =>
              ({ success := false, messageId := none, error := some (catchallError m) }, st,
                [SessionCall.lookup formattedPhone, SessionCall.fetchMedia mUrl])
          | Except.ok media =>
            match env.sendMediaCall validChatId media req.content with
            | Except.error m =>
                ({ success := false, messageId := none, error := some (catchallError m) }, st,
                  [SessionCall.lookup formattedPhone, SessionCall.fetchMedia mUrl,
                    SessionCall.sendMediaMessage validChatId media req.content])
            | Except.ok ack =>
                ({ success := true, messageId := some ack, error := none }, st,
                  [SessionCall.lookup formattedPhone, SessionCall.fetchMedia mUrl,
                    SessionCall.sendMediaMessage validChatId media req.content])
        else
          match env.sendTextCall validChatId req.content with
          | Except.error m =>
              ({ success := false, messageId := none, error := some (catchallError m) }, st,
                [SessionCall.lookup formattedPhone,
                  SessionCall.sendTextMessage validChatId req.content])
          | Except.ok ack =>
              ({ success := true, messageId := some ack, error := none }, st,
                [SessionCall.lookup formattedPhone,
                  SessionCall.sendTextMessage validChatId req.content])

/-- The synchronous phase of `WhatsAppService.initialize`, running
atomically up to the `await this.client.initialize()` suspension point:
both no-op guards, then the flag flip and the construction of a fresh
client (`newClientId`).  The second component counts client
constructions performed by the call (0 or 1). -/
def initializeStep (st : SessionState) (newClientId : Nat) : SessionState × Nat :=
  if st.client.isSome && st.isReady then (st, 0)
  else if st.isInitializing then (st, 0)
  else ({ st with isInitializing := true, client := some newClientId }, 1)

/-- `catch` continuation of `initialize` when the awaited
`client.initialize()` rejects: clear the in-flight flag and rethrow. -/
def initializeCatch (st : SessionState) : SessionState :=
  { st with isInitializing := false }

/-- The `qr` lifecycle callback: store the QR payload. -/
def onQr (st : SessionState) (qr : String) : SessionState :=
  { st with qrCodeData := some qr }

/-- The `authenticated` lifecycle callback: clear the QR payload. -/
def onAuthenticated (st : SessionState) : SessionState :=
  { st with qrCodeData := none }

/-- The `ready` lifecycle callback: mark ready, clear the in-flight flag,
and capture the connected phone number when `client.info` is available. -/
def onReady (st : SessionState) (connectedPhone : Option String) : SessionState :=
  { st with
    isReady := true
    isInitializing := false
    phoneNumber := (match connectedPhone with
      | some p => some p
      | none => st.phoneNumber) }

/-- The `disconnected` lifecycle callback. -/
def onDisconnected (st : SessionState) : SessionState :=
  { st with isReady := false, qrCodeData := none }

/-- The `auth_failure` lifecycle callback. -/
def onAuthFailure (st : SessionState) : SessionState :=
  { st with isReady := false, qrCodeData := none, isInitializing := false }

/-- Outcome of the `client.logout()` / `client.destroy()` teardown pair. -/
inductive TeardownOutcome where
  | ok
  | logoutThrows (msg : String)
  | destroyThrows (msg : String)
deriving DecidableEq

/-- `WhatsAppService.disconnect` of the session variant: no-op when no
client exists; on successful teardown, reset every field; when `logout`
or `destroy` throws, the state-resetting assignments are never reached and
the error is rethrown (second component). -/
def disconnect (st : SessionState) (t : TeardownOutcome) : SessionState × Option String :=
  match st.client with
  | none => (st, none)
  | some _ =>
    match t with
    | TeardownOutcome.ok =>
        ({ st with client := none, isReady := false, qrCodeData := none, phoneNumber := none }, none)
    | TeardownOutcome.logoutThrows m => (st, some m)
    | TeardownOutcome.destroyThrows m => (st, some m)

/-- C3: every result returned by the Cloud-API `sendMessage` and
`sendTemplateMessage` and by the session-variant `sendMessage` satisfies
the `DispatchResult` invariant: `messageId` is present exactly when
`success = true`, and `error` is present exactly when `success = false`. -/
theorem dispatchResult_invariant :
    (∀ cfg req provider,
        ((cloudSendMessage cfg req provider).1.messageId.isSome
            = (cloudSendMessage cfg req provider).1.success) ∧
        ((cloudSendMessage cfg req provider).1.error.isSome
            = !(cloudSendMessage cfg req provider).1.success)) ∧
    (∀ cfg phone tname lang params provider,
        ((cloudSendTemplateMessage cfg phone tname lang params provider).1.messageId.isSome
            = (cloudSendTemplateMessage cfg phone tname lang params provider).1.success) ∧
        ((cloudSendTemplateMessage cfg phone tname lang params provider).1.error.isSome
            = !(cloudSendTemplateMessage cfg phone tname lang params provider).1.success)) ∧
    (∀ st req env,
        ((sessionSendMessage st req env).1.messageId.isSome
            = (sessionSendMessage st req env).1.success) ∧
        ((sessionSendMessage st req env).1.error.isSome
            = !(sessionSendMessage st req env).1.success)) := by
  refine ⟨?_, ?_, ?_⟩
  · intro cfg req provider
    by_cases h : isConfigured cfg = true
    · rcases provider with ids | e
      · rcases ids with _ | ⟨i, rest⟩ <;> simp [cloudSendMessage, h]
      · simp [cloudSendMessage, h]
    · simp [cloudSendMessage, h]
  · intro cfg phone tname lang params provider
    by_cases h : isConfigured cfg = true
    · rcases provider with ids | e
      · rcases ids with _ | ⟨i, rest⟩ <;> simp [cloudSendTemplateMessage, h]
      · simp [cloudSendTemplateMessage, h]
    · simp [cloudSendTemplateMessage, h]
  · intro st req env
    unfold sessionSendMessage
    dsimp only
    repeat' split
    all_goals simp

/-- C5: with unset credentials the Cloud-API `sendMessage` and
`sendTemplateMessage` return the configuration error and issue no outbound
provider call; with the session client absent or not ready the session
`sendMessage` returns the not-connected error, issues no provider call,
and returns the state unchanged. -/
theorem unconfigured_unready_guards :
    (∀ cfg req provider, isConfigured cfg = false →
        cloudSendMessage cfg req provider =
          ({ success := false, messageId := none, error := some configErrorSendMessage },
            none)) ∧
    (∀ cfg phone tname lang params provider, isConfigured cfg = false →
        cloudSendTemplateMessage cfg phone tname lang params provider =
          ({ success := false, messageId := none, error := some configErrorTemplate },
            none)) ∧
    (∀ st req env, st.client = none ∨ st.isReady = false →
        sessionSendMessage st req env =
          ({ success := false, messageId := none, error := some notConnectedError },
            st, [])) := by
  refine ⟨?_, ?_, ?_⟩
  · intro cfg req provider h
    simp [cloudSendMessage, h]
  · intro cfg phone tname lang params provider h
    simp [cloudSendTemplateMessage, h]
  · intro st req env h
    have hg : (st.client.isNone || !st.isReady) = true := by
      rcases h with h | h <;> simp [h]
    simp [sessionSendMessage, hg]

/-- C5 witness: the three guards at concrete inputs — an empty access
token, an empty phone-number id, and a disconnected session state. -/
theorem unconfigured_unready_guards_witness :
    cloudSendMessage ⟨"https://graph.facebook.com/v18.0", "", "", ""⟩
        ⟨"11999999999", none, "hi", none, none⟩ (ProviderOutcome.ok ["wamid.A"]) =
      ({ success := false, messageId := none, error := some configErrorSendMessage },
        none) ∧
    cloudSendTemplateMessage ⟨"https://graph.facebook.com/v18.0", "TOKEN", "", ""⟩
        "11999999999" "exam_ready" "pt_BR" none (ProviderOutcome.ok ["wamid.A"]) =
      ({ success := false, messageId := none, error := some configErrorTemplate },
        none) ∧
    sessionSendMessage ⟨none, false, none, false, none⟩ ⟨"11999999999", none, "hi", none⟩
        ⟨fun _ => Except.ok (some "x@c.us"), fun _ => Except.ok 0,
          fun _ _ _ => Except.ok "a", fun _ _ => Except.ok "b"⟩ =
      ({ success := false, messageId := none, error := some notConnectedError },
        ⟨none, false, none, false, none⟩, []) :=
  ⟨unconfigured_unready_guards.1 _ _ _ (by decide),
    unconfigured_unready_guards.2.1 _ _ _ _ _ _ (by decide),
    unconfigured_unready_guards.2.2 _ _ _ (Or.inl rfl)⟩

/-- C6: for a configured Cloud-API dispatcher, `sendMessage` issues exactly
one POST to `<apiUrl>/<phoneNumberId>/messages` with bearer-token auth,
whose payload sends to `formatPhoneNumber recipientPhone`, has type
`"text"`, carries the message (with the `"\n\n🔗 "` marker and link
appended when a link is provided) and `preview_url` equal to
`linkPreview !== false` (true when omitted); provider success maps to
`success := true` with the first returned message id, and a provider error
maps to `success := false` with the provider message and code embedded
when available. -/
theorem cloudSendMessage_contract (cfg : CloudConfig) (req : WhatsAppSendMessageRequest)
    (provider : ProviderOutcome) (hcfg : isConfigured cfg = true) :
    ∃ call : OutboundCall,
      (cloudSendMessage cfg req provider).2 = some call ∧
      call.url = cfg.apiUrl ++ "/" ++ cfg.phoneNumberId ++ "/messages" ∧
      call.authorization = "Bearer " ++ cfg.accessToken ∧
      call.payload.toPhone = formatPhoneNumber req.recipientPhone ∧
      call.payload.type = "text" ∧
      call.payload.preview_url = (req.linkPreview != some false) ∧
      (req.linkPreview = none → call.payload.preview_url = true) ∧
      (req.linkUrl = none → call.payload.body = req.message) ∧
      (∀ link, req.linkUrl = some link → link ≠ "" →
          call.payload.body = req.message ++ "\n\n🔗 " ++ link) ∧
      (∀ firstId rest, provider = ProviderOutcome.ok (firstId :: rest) →
          (cloudSendMessage cfg req provider).1 =
            { success := true, messageId := some firstId, error := none }) ∧
      (∀ e, provider = ProviderOutcome.err e →
          (cloudSendMessage cfg req provider).1 =
            { success := false, messageId := none,
              error := some (sendMessageErrorText e) } ∧
          ∀ m c, e.apiErr = some (m, c) →
            sendMessageErrorText e = "WhatsApp API Error: " ++ m ++ " (Code: " ++ c ++ ")") := by
  refine ⟨{ url := cfg.apiUrl ++ "/" ++ cfg.phoneNumberId ++ "/messages"
            authorization := "Bearer " ++ cfg.accessToken
            payload :=
              { messaging_product := "whatsapp"
                recipient_type := "individual"
                toPhone := formatPhoneNumber req.recipientPhone
                type := "text"
                preview_url := req.linkPreview != some false
                body :=
                  if strTruthy req.linkUrl then
                    req.message ++ "\n\n🔗 " ++ req.linkUrl.getD ""
                  else req.message } },
    ?_, rfl, rfl, rfl, rfl, rfl, ?_, ?_, ?_, ?_, ?_⟩
  · rcases provider with ids | e
    · rcases ids with _ | ⟨i, rest⟩ <;> simp [cloudSendMessage, hcfg]
    · simp [cloudSendMessage, hcfg]
  · intro h
    simp [h]
  · intro h
    simp [h, strTruthy]
  · intro link hl hne
    simp [hl, strTruthy, hne]
  · intro firstId rest h
    subst h
    simp [cloudSendMessage, hcfg]
  · intro e h
    subst h
    refine ⟨by simp [cloudSendMessage, hcfg], ?_⟩
    intro m c hm
    simp [sendMessageErrorText, hm]

/-- C6 witness: the contract applied to a configured dispatcher sending
`"hi"` with a link to `"11999999999"`, projected on the success result. -/
theorem cloudSendMessage_contract_witness :
    (cloudSendMessage ⟨"https://graph.facebook.com/v18.0", "TOKEN", "PHONEID", ""⟩
        ⟨"11999999999", none, "hi", some "https://x.com", none⟩
        (ProviderOutcome.ok ["wamid.PROVIDER1"])).1 =
      { success := true, messageId := some "wamid.PROVIDER1", error := none } := by
  obtain ⟨call, hsome, hurl, hauth, hto, hty, hprev, hprev1, hbody0, hbody1, hok, herr⟩ :=
    cloudSendMessage_contract ⟨"https://graph.facebook.com/v18.0", "TOKEN", "PHONEID", ""⟩
      ⟨"11999999999", none, "hi", some "https://x.com", none⟩
      (ProviderOutcome.ok ["wamid.PROVIDER1"]) (by decide)
  exact hok "wamid.PROVIDER1" [] rfl

/-- C7: session-variant `sendMessage` in the ready state strips the
recipient phone to its digits and resolves it through the lookup call;
an empty lookup yields the not-registered error with no send attempted;
a successful lookup sends media (fetched from `mediaUrl`, captioned with
the content) when `mediaUrl` is provided and plain text otherwise,
returning the provider acknowledgment id on success. -/
theorem sessionSendMessage_ready_contract (st : SessionState)
    (req : SessionSendMessageRequest) (env : SessionEnv)
    (hc : st.client.isSome = true) (hr : st.isReady = true) :
    (∀ r, env.getNumberId (digitsOnly req.recipientPhone) = Except.ok r →
        strTruthy r = false →
        sessionSendMessage st req env =
          ({ success := false, messageId := none,
              error := some (notRegisteredError req.recipientPhone) }, st,
            [SessionCall.lookup (digitsOnly req.recipientPhone)])) ∧
    (∀ chatId mUrl media ack,
        env.getNumberId (digitsOnly req.recipientPhone) = Except.ok (some chatId) →
        chatId ≠ "" → req.mediaUrl = some mUrl → mUrl ≠ "" →
        env.mediaFromUrl mUrl = Except.ok media →
        env.sendMediaCall chatId media req.content = Except.ok ack →
        sessionSendMessage st req env =
          ({ success := true, messageId := some ack, error := none }, st,
            [SessionCall.lookup (digitsOnly req.recipientPhone),
              SessionCall.fetchMedia mUrl,
              SessionCall.sendMediaMessage chatId media req.content])) ∧
    (∀ chatId ack,
        env.getNumberId (digitsOnly req.recipientPhone) = Except.ok (some chatId) →
        chatId ≠ "" → req.mediaUrl = none →
        env.sendTextCall chatId req.content = Except.ok ack →
        sessionSendMessage st req env =
          ({ success := true, messageId := some ack, error := none }, st,
            [SessionCall.lookup (digitsOnly req.recipientPhone),
              SessionCall.sendTextMessage chatId req.content])) := by
  obtain ⟨cl, hcl⟩ := Option.isSome_iff_exists.mp hc
  refine ⟨?_, ?_, ?_⟩
  · intro r hg hstr
    simp [sessionSendMessage, hcl, hr, hg, hstr]
  · intro chatId mUrl media ack hg hne hmu hmne hfm hsm
    simp [sessionSendMessage, hcl, hr, hg, hne, hmu, hmne, hfm, hsm, strTruthy]
  · intro chatId ack hg hne hmu hst
    simp [sessionSendMessage, hcl, hr, hg, hne, hmu, hst, strTruthy]

/-- C7 witness: a ready session state delivering a plain text message to
`"(11) 99999-9999"` through a lookup that resolves `"11999999999"`. -/
theorem sessionSendMessage_ready_contract_witness :
    sessionSendMessage ⟨some 1, false, none, true, some "5511000000000"⟩
        ⟨"(11) 99999-9999", none, "hi", none⟩
        ⟨fun _ => Except.ok (some "5511999999999@c.us"), fun _ => Except.ok 0,
          fun _ _ _ => Except.ok "SERIALM", fun _ _ => Except.ok "SERIALT"⟩ =
      ({ success := true, messageId := some "SERIALT", error := none },
        ⟨some 1, false, none, true, some "5511000000000"⟩,
        [SessionCall.lookup "11999999999",
          SessionCall.sendTextMessage "5511999999999@c.us" "hi"]) := by
  have h := (sessionSendMessage_ready_contract
      ⟨some 1, false, none, true, some "5511000000000"⟩
      ⟨"(11) 99999-9999", none, "hi", none⟩
      ⟨fun _ => Except.ok (some "5511999999999@c.us"), fun _ => Except.ok 0,
        fun _ _ _ => Except.ok "SERIALM", fun _ _ => Except.ok "SERIALT"⟩
      rfl rfl).2.2 "5511999999999@c.us" "SERIALT" rfl (by decide) rfl rfl
  rw [h]
  rfl

/-- C8: the synchronous phase of `initialize` is a no-op when the client
exists and is ready, and when an initialization is already in flight; from
any other state the first call constructs exactly one client and sets the
in-flight flag, so a second call arriving while the first is still awaiting
returns immediately without constructing anything — two calls in quick
succession construct exactly one client. -/
theorem initializeStep_single_construction :
    (∀ st newId, st.client.isSome = true → st.isReady = true →
        initializeStep st newId = (st, 0)) ∧
    (∀ st newId, st.isInitializing = true → initializeStep st newId = (st, 0)) ∧
    (∀ st id1 id2, st.isInitializing = false →
        ¬(st.client.isSome = true ∧ st.isReady = true) →
        (initializeStep st id1).2 = 1 ∧
        initializeStep (initializeStep st id1).1 id2 = ((initializeStep st id1).1, 0) ∧
        (initializeStep st id1).2 + (initializeStep (initializeStep st id1).1 id2).2 = 1) := by
  refine ⟨?_, ?_, ?_⟩
  · intro st newId h1 h2
    simp [initializeStep, h1, h2]
  · intro st newId h
    unfold initializeStep
    split
    · rfl
    · simp [h]
  · intro st id1 id2 h1 h2
    cases hcl : st.client.isSome <;> cases hrd : st.isReady <;>
      simp_all [initializeStep]

/-- C8 witness: from the fresh singleton state, the first `initialize`
constructs one client and the immediately following call is a no-op. -/
theorem initializeStep_single_construction_witness :
    (initializeStep ⟨none, false, none, false, none⟩ 1).2 = 1 ∧
    initializeStep (initializeStep ⟨none, false, none, false, none⟩ 1).1 2 =
      ((initializeStep ⟨none, false, none, false, none⟩ 1).1, 0) ∧
    (initializeStep ⟨none, false, none, false, none⟩ 1).2 +
      (initializeStep (initializeStep ⟨none, false, none, false, none⟩ 1).1 2).2 = 1 :=
  initializeStep_single_construction.2.2 ⟨none, false, none, false, none⟩ 1 2 rfl (by decide)

/-- C9 counterexample: on a connected state, when `logout` throws, the
client, ready flag, QR data and phone number are NOT reset — the
state-resetting assignments are never reached and the error is rethrown,
contradicting the claim that the state is reset even on that path. -/
theorem disconnect_throw_keeps_state :
    (disconnect ⟨some 1, false, some "QRDATA", true, some "5511888887777"⟩
        (TeardownOutcome.logoutThrows "boom")).1 =
      ⟨some 1, false, some "QRDATA", true, some "5511888887777"⟩ ∧
    (disconnect ⟨some 1, false, some "QRDATA", true, some "5511888887777"⟩
        (TeardownOutcome.logoutThrows "boom")).2 = some "boom" :=
  ⟨rfl, rfl⟩

/-- C9 (amended): `disconnect` is a no-op when no client exists; when
`logout` and `destroy` both succeed it resets all in-memory state; when
either throws, the error is surfaced to the caller and the state is left
unchanged (not reset). -/
theorem disconnect_behavior (st : SessionState) (t : TeardownOutcome) :
    (st.client = none → disconnect st t = (st, none)) ∧
    (st.client.isSome = true → t = TeardownOutcome.ok →
        disconnect st t =
          ({ st with
              client := none
              isReady := false
              qrCodeData := none
              phoneNumber := none }, none)) ∧
    (∀ m, st.client.isSome = true →
        (t = TeardownOutcome.logoutThrows m ∨ t = TeardownOutcome.destroyThrows m) →
        disconnect st t = (st, some m)) := by
  refine ⟨?_, ?_, ?_⟩
  · intro h
    simp [disconnect, h]
  · intro h ht
    subst ht
    obtain ⟨cl, hcl⟩ := Option.isSome_iff_exists.mp h
    simp [disconnect, hcl]
  · intro m h ht
    obtain ⟨cl, hcl⟩ := Option.isSome_iff_exists.mp h
    rcases ht with ht | ht <;> subst ht <;> simp [disconnect, hcl]

/-- C9 witness: the amended behaviour applied to a connected state whose
teardown succeeds — every field is reset. -/
theorem disconnect_behavior_witness :
    disconnect ⟨some 1, false, some "QRDATA", true, some "5511888887777"⟩ TeardownOutcome.ok =
      (⟨none, false, none, false, none⟩, none) :=
  (disconnect_behavior ⟨some 1, false, some "QRDATA", true, some "5511888887777"⟩
    TeardownOutcome.ok).2.1 rfl rfl

/-- C10: the session dispatcher applies no default-country-code
normalization — in every ready-state run the first provider call is a
lookup of exactly the digit characters of `recipientPhone` (no
leading-zero removal, no `"55"` prefix); and for every input whose digit
form has length at most 11 that lookup string differs from what the
Cloud-API `formatPhoneNumber` would produce for the same input. -/
theorem sessionLookup_plain_digits :
    (∀ st req env, st.client.isSome = true → st.isReady = true →
        (sessionSendMessage st req env).2.2.head? =
          some (SessionCall.lookup (digitsOnly req.recipientPhone))) ∧
    (∀ p : String, (digitsOnly p).length ≤ 11 → digitsOnly p ≠ formatPhoneNumber p) := by
  constructor
  · intro st req env hc hr
    obtain ⟨cl, hcl⟩ := Option.isSome_iff_exists.mp hc
    unfold sessionSendMessage
    dsimp only
    repeat' split
    all_goals simp_all
  · intro p hlen heq
    have h1 : (dropLeadingZero (digitsOnly p)).length ≤ 11 :=
      le_trans (dropLeadingZero_length_le _) hlen
    have h2 : (digitsOnly p).length - 1 ≤ (dropLeadingZero (digitsOnly p)).length :=
      dropLeadingZero_length_ge _
    have hf : formatPhoneNumber p = "55" ++ dropLeadingZero (digitsOnly p) := by
      unfold formatPhoneNumber prependCountryCode
      rw [if_pos h1]
    rw [hf] at heq
    have hlen2 := congrArg String.length heq
    rw [String.length_append] at hlen2
    have h55 : ("55" : String).length = 2 := rfl
    omega

/-- C10 witness: a concrete ready-state run whose lookup carries the plain
digit string `"11999999999"`, which differs from the Cloud-API
normalization `"5511999999999"` of the same input. -/
theorem sessionLookup_plain_digits_witness :
    (sessionSendMessage ⟨some 1, false, none, true, none⟩
        ⟨"(11) 99999-9999", none, "hi", none⟩
        ⟨fun _ => Except.ok (some "5511999999999@c.us"), fun _ => Except.ok 0,
          fun _ _ _ => Except.ok "SERIALM2", fun _ _ => Except.ok "SERIALT2"⟩).2.2.head? =
      some (SessionCall.lookup "11999999999") ∧
    digitsOnly "11999999999" ≠ formatPhoneNumber "11999999999" := by
  constructor
  · have h := sessionLookup_plain_digits.1 ⟨some 1, false, none, true, none⟩
      ⟨"(11) 99999-9999", none, "hi", none⟩
      ⟨fun _ => Except.ok (some "5511999999999@c.us"), fun _ => Except.ok 0,
        fun _ _ _ => Except.ok "SERIALM2", fun _ _ => Except.ok "SERIALT2"⟩ rfl rfl
    rw [h]
    rfl
  · exact sessionLookup_plain_digits.2 "11999999999" (by decide)
